import Mathlib

/-!
# Verification of the Video-Metadata-DB probe-and-write pipeline

Shallow embedding of `src/video_metadata_db.py` (the only source file) and
proofs about the claims of its specification.

Modelling conventions:
* Python integers are `ℤ`/`ℕ`; Python numeric values that flow through
  `round`/division are exact rationals (`ℚ`).  Every concrete input used in a
  theorem below is exactly representable as an IEEE double and all
  intermediate values stay exact, so the idealization agrees with CPython on
  those inputs.
* Rationals are built with `mkRat` and integer arithmetic on `num`/`den`
  (instead of `ℚ`'s field operations) so that all definitions evaluate by
  kernel reduction.
* Stateful code becomes explicit state passing; fallible code returns
  `Except`/`Option`; the worker's externally visible actions (lock
  acquisitions, probe invocations, stream writes, ...) are recorded as an
  event trace.
-/

/-- Models Python's builtin `round(n/d)` (banker's rounding: ties go to the
nearest even integer) for an exact rational `n/d` with `d ≠ 0`.  Used for the
`round(...)` calls in `total_time_in_hms_get_for_seconds` (src lines 70-89)
and `percentage_completion_print` (src line 458). -/
def pyRoundInt (n : ℤ) (d : ℕ) : ℤ :=
  let f : ℤ := Int.fdiv n (d : ℤ)
  let r : ℤ := n - f * (d : ℤ)
  if 2 * r < (d : ℤ) then f
  else if (d : ℤ) < 2 * r then f + 1
  else if f % 2 = 0 then f else f + 1

/-- Python `round(q)` on an exact rational value. -/
def pyRound (q : ℚ) : ℤ := pyRoundInt q.num q.den

/-- `q * k` for a natural `k`, written on `num`/`den` so it kernel-reduces. -/
def ratMulNat (q : ℚ) (k : ℕ) : ℚ := mkRat (q.num * (k : ℤ)) q.den

/-- `q / k` for a natural `k ≠ 0`, written on `num`/`den`. -/
def ratDivNat (q : ℚ) (k : ℕ) : ℚ := mkRat q.num (q.den * k)

/-- Python `round(q, 2)` (round to two decimal places, ties to even). -/
def pyRound2dec (q : ℚ) : ℚ := mkRat (pyRound (ratMulNat q 100)) 100

/-- Renders a nonnegative rational with denominator dividing 100 the way
Python's `str` renders the corresponding float (`str(0.5) = "0.5"`,
`str(30) = "30"`).  Models the `str(seconds)` conversions in
`total_time_in_hms_get_for_seconds` (src lines 92-100); only values produced
by `round(_)` or `round(_, 2)` reach it. -/
def ratStr (q : ℚ) : String :=
  if q.den = 1 then toString q.num
  else if (ratMulNat q 10).den = 1 then
    toString (Int.fdiv q.num (q.den : ℤ)) ++ "." ++ toString ((ratMulNat q 10).num % 10)
  else
    toString (Int.fdiv q.num (q.den : ℤ)) ++ "." ++
      toString ((ratMulNat q 100).num / 10 % 10) ++ toString ((ratMulNat q 100).num % 10)

/-- Embedding of `total_time_in_hms_get_for_seconds` (src lines 69-101).

The source first rounds the raw seconds, then — when at least 60 — computes
`minutes = round(seconds / 60)` (note: Python `round`, not integer division)
and `seconds = seconds % 60`, and likewise hours from minutes; the display
value for seconds is re-derived from `seconds_raw` in the two sub-minute
branches of src lines 83-89.  Python truthiness `not (hours and minutes)`
is `hours = 0 ∨ minutes = 0`. -/
def total_time_in_hms_get_for_seconds (seconds_raw : ℚ) (concise : Bool) : String :=
  let seconds0 : ℤ := pyRound seconds_raw
  let minutes1 : ℤ := if seconds0 ≥ 60 then pyRoundInt seconds0 60 else 0
  let seconds1 : ℤ := if seconds0 ≥ 60 then seconds0 % 60 else seconds0
  let hours2 : ℤ := if minutes1 ≥ 60 then pyRoundInt minutes1 60 else 0
  let minutes2 : ℤ := if minutes1 ≥ 60 then minutes1 % 60 else minutes1
  let seconds_final : ℚ :=
    if (hours2 = 0 ∨ minutes2 = 0) ∧ seconds_raw < 1 ∧ seconds_raw > 0 then
      pyRound2dec seconds_raw
    else if (hours2 = 0 ∨ minutes2 = 0) ∧ seconds_raw < 60 ∧ seconds_raw > 1 then
      (pyRound seconds_raw : ℚ)
    else (seconds1 : ℚ)
  if concise then
    (if hours2 ≠ 0 then toString hours2 ++ "h:" else "")
      ++ (if minutes2 ≠ 0 then toString minutes2 ++ "m:" else "")
      ++ (ratStr seconds_final ++ "s")
  else
    (if hours2 ≠ 0 then toString hours2 ++ " hour(s) " else "")
      ++ (if minutes2 ≠ 0 then toString minutes2 ++ " minute(s) " else "")
      ++ (ratStr seconds_final ++ " second(s)")

/-- Embedding of `total_time_in_hms_get_for_seconds_micro` (src lines 105-106). -/
def total_time_in_hms_get_for_seconds_micro (total_time_us : ℚ) (concise : Bool) : String :=
  total_time_in_hms_get_for_seconds (ratDivNat total_time_us 1000000) concise

/-- The duration field written by `save_video_information` (src lines 269-279):
if the probe's duration line is not the literal `"N/A"`, it is parsed as a
float, scaled to microseconds and formatted concisely; otherwise the string is
relayed as-is.  `parsed` stands for Python's `float(duration_video)` (string
to float parsing is external); it is irrelevant in the `"N/A"` branch. -/
def duration_video_field (duration_video : String) (parsed : ℚ) : String :=
  if duration_video ≠ "N/A" then
    total_time_in_hms_get_for_seconds_micro (ratMulNat parsed 1000000) true
  else duration_video

/-! ## Row Encoder: width/height fields (src lines 238-267) -/

/-- Python `"{:>fill width}".format(s)`: right-justify `s` in `width`
characters, padding on the left with `fill`. -/
def formatRight (fill : Char) (width : ℕ) (s : String) : String :=
  if width ≤ s.length then s
  else String.mk (List.replicate (width - s.length) fill) ++ s

/-- The sequence of strings `save_video_information` writes to the stream for
the width/height columns (src lines 240-267), given the decoded width and
height lines of the video probe output.  Python truthiness
`len(w) and len(h)` is `w.length ≠ 0 ∧ h.length ≠ 0`; the `else` branch
writes a `"{:>04}"`-formatted placeholder for each dimension that is empty —
and writes nothing at all for a dimension that is non-empty. -/
def width_height_writes (w h : String) : List String :=
  if w.length ≠ 0 ∧ h.length ≠ 0 then
    [formatRight ' ' 4 w ++ "\t", formatRight ' ' 4 h ++ "\t"]
  else
    (if w.length = 0 then [formatRight '0' 4 "" ++ "\t"] else [])
      ++ (if h.length = 0 then [formatRight '0' 4 "" ++ "\t"] else [])

/-! ## Row Encoder: compression-candidate field (src lines 296-304) -/

/-- The fixed tuple `codec_video_compressed` (src line 297). -/
def codec_video_compressed : List String :=
  ["Alliance for Open Media AV1", "H.265 / HEVC (High Efficiency Video Coding)"]

/-- The compression-candidate column written by `save_video_information`
(src lines 299-304): `"N"` when the video codec long name is a member of
`codec_video_compressed`, `"Y"` otherwise. -/
def compression_candidate_field (codec_video_name : String) : String :=
  if codec_video_name ∈ codec_video_compressed then "N" else "Y"

/-! ## Progress Reporter (src lines 456-504) -/

/-- `CHECKPOINT_FILES_QUERIED` (src lines 458-465):
`round(total_count_percentage * (1 / 100))`, bumped to 1 when zero. -/
def checkpoint_files_queried (total_count_percentage : ℕ) : ℕ :=
  let c := (pyRound (mkRat (total_count_percentage : ℤ) 100)).toNat
  if c = 0 then 1 else c

/-- Embedding of `percentage_completion_print` (src lines 456-504), reduced to
its observable question for claim C7: does the call emit the final
`"All files in queue queried"` message?  The source prints that message only
in the `else` branch of the checkpoint test (src lines 501-504), i.e. only
when `count_processed % CHECKPOINT_FILES_QUERIED != 0`, and then only when
`total_count_queried == total_count_percentage`.  The `if` branch (src lines
468-500) prints percentage checkpoints, never the final message. -/
def percentage_completion_print (count_processed total_count_queried total_count_percentage : ℕ) :
    Bool :=
  let cp := checkpoint_files_queried total_count_percentage
  if count_processed % cp = 0 then false
  else total_count_queried == total_count_percentage

/-- The call site (src lines 719-725) passes `total_count_queried` as
`count_processed`. -/
def final_message_emitted (total_count_queried total_count_percentage : ℕ) : Bool :=
  percentage_completion_print total_count_queried total_count_queried total_count_percentage

/-! ## Update Filter (src lines 427-452) -/

/-- Splits a character list at its last occurrence of `sep`:
`some (before, after)` with the list equal to `before ++ [sep] ++ after` and
`after` free of `sep`; `none` when `sep` does not occur. -/
def splitAtLastSep (sep : Char) : List Char → Option (List Char × List Char)
  | [] => none
  | c :: rest =>
    match splitAtLastSep sep rest with
    | some (pre, post) => some (c :: pre, post)
    | none => if c = sep then some ([], rest) else none

/-- Model of POSIX `os.path.dirname` (external collaborator): everything
before the last `/`.  Exotic edge cases (trailing or repeated slashes, drive
letters) are outside the inputs used here. -/
def path_dirname (p : String) : String :=
  match splitAtLastSep '/' p.data with
  | some (pre, _) => String.mk pre
  | none => ""

/-- Model of POSIX `os.path.basename` (external collaborator): everything
after the last `/`. -/
def path_basename (p : String) : String :=
  match splitAtLastSep '/' p.data with
  | some (_, post) => String.mk post
  | none => p

/-- `needle` occurs at the head of the list. -/
def leadsWith : List Char → List Char → Bool
  | [], _ => true
  | _ :: _, [] => false
  | a :: as, b :: bs => a = b && leadsWith as bs

/-- `needle` occurs contiguously somewhere in the list: the substring test
behind `content_db.find(needle) != -1` (src line 443).  (On CPython 3 the
call as written additionally raises `TypeError` — `mmap.find` requires
`bytes` and receives `str`; the model keeps the intended substring
semantics.) -/
def occursIn (needle : List Char) : List Char → Bool
  | [] => leadsWith needle []
  | c :: rest => leadsWith needle (c :: rest) || occursIn needle rest

/-- `hay.find(needle) != -1` for strings. -/
def strContains (hay needle : String) : Bool := occursIn needle.data hay.data

/-- A writable text stream: its current content and the write-offset cookie
returned by `tell()`.  (For the append-mode streams of interest the cookie is
the byte size of the content.) -/
structure FileStream where
  content : String
  pos : ℕ
  deriving DecidableEq, Repr

/-- Python `io` `seek(offset, whence)` on a text stream: `whence` must be
0 (absolute), 1 (relative, offset 0 only — position unchanged) or
2 (end of stream); any other value raises
`ValueError: invalid whence`.  Both call sites in the source pass
`offset = 0`. -/
def stream_seek (s : FileStream) (offset : ℕ) (whence : ℕ) : Except String FileStream :=
  if whence = 0 then .ok { s with pos := offset }
  else if whence = 1 then .ok s
  else if whence = 2 then .ok { s with pos := s.content.length }
  else .error "ValueError: invalid whence"

/-- Embedding of `query_file_update_check` (src lines 427-452).

The source saves `offset_db_original = file_dimensions.tell()` (line 437),
seeks to the beginning (line 440), memory-maps the whole content (line 441)
and searches it for `os.path.basename(os.path.dirname(path_file))` (line
443).  On a match it returns `False` ("skip").  On no match it executes
`file_dimensions.seek(0, offset_db_original)` (line 446) — the saved offset
is passed as the *whence* argument — and returns `True` ("allow"). -/
def query_file_update_check (path_file : String) (file_dimensions : FileStream) :
    Except String (Bool × FileStream) := do
  let offset_db_original := file_dimensions.pos
  let fd ← stream_seek file_dimensions 0 0
  let content_db := fd.content
  if strContains content_db (path_basename (path_dirname path_file)) = false then
    let fd' ← stream_seek fd 0 offset_db_original
    return (true, fd')
  else
    return (false, fd)

/-! ## Concurrent Dispatcher worker: `query_file` (src lines 517-726)

The worker is embedded as an explicit state transformer.  Its shared mutable
state (`query_file.total_count_*`, `query_file.total_time_*`,
`dict_files_failed`, and the rows committed to the output stream) becomes
`RunState`; everything the worker does that is visible outside that state —
acquiring and releasing the module's mutexes (src lines 41-45), invoking the
external probe, writing to the stream, console/toast output — is recorded in
an event trace. -/

/-- The five module-level locks (src lines 41-45). -/
inductive MuName where
  | count | time | console | file | failed_probe
  deriving DecidableEq, Repr

/-- One observable action of a worker. -/
inductive WorkerEv where
  | acquire (m : MuName)
  | release (m : MuName)
  | incr_total_count_percentage
  | incr_total_count_files
  | incr_total_count_queried
  | add_total_time_queried
  | add_total_time_db_save
  | read_clock
  | open_db (ok : Bool)
  | invoke_probe (path : String)
  | update_dict_files_failed (path : String)
  | console_output
  | show_toast
  | write_row (path : String)
  | close_db
  deriving DecidableEq, Repr

/-- The shared per-run counters, accumulators, failure map and output rows. -/
structure RunState where
  total_count_files : ℕ
  total_count_queried : ℕ
  total_time_queried : ℕ
  total_time_db_save : ℕ
  total_count_percentage : ℕ
  dict_files_failed : List (String × String)
  rows_written : List String
  deriving DecidableEq, Repr

/-- All-zero state at batch start (src lines 759-763). -/
def initial_run_state : RunState := ⟨0, 0, 0, 0, 0, [], []⟩

/-- Python `dict.update({k: v})` on an association list: replace the value
when the key is present, append the pair otherwise. -/
def dict_update (d : List (String × String)) (k v : String) : List (String × String) :=
  if d.any (fun p => p.1 = k) then d.map (fun p => if p.1 = k then (k, v) else p)
  else d ++ [(k, v)]

/-- Outcome of the external dual probe of one file (src lines 597-634), as
seen by the worker: the two trimmed stdout texts, or the failure reason
captured by the `except` clauses (src lines 635, 660). -/
inductive ProbeResult where
  | ok (output_video output_audio : String)
  | err (reason : String)
  deriving DecidableEq, Repr

/-- One unit of work together with the external facts that decide its branch:
whether a shared stream/volume label was passed in (directory mode) or the
worker must open a private db (standalone mode, src lines 540-577), whether
that private open raises `OSError`, whether the update filter finds the file
already represented, the probe outcome, and the (nondeterministic) clock
increments. -/
structure FileJob where
  path_file : String
  file_dimensions_given : Bool
  open_fails : Bool
  already_in_db : Bool
  probe : ProbeResult
  time_probe : ℕ
  time_save : ℕ
  deriving DecidableEq, Repr

/-- The trailing block of `query_file` (src lines 719-725): under
`mutex_count`, when a percentage denominator was gathered, print progress
under `mutex_console`. -/
def query_file_tail (s : RunState) : List WorkerEv :=
  [.acquire .count]
    ++ (if s.total_count_percentage ≠ 0 then
          [.acquire .console, .console_output, .release .console]
        else [])
    ++ [.release .count]

/-- Embedding of `query_file` (src lines 517-726): the updated shared state
and the worker's event trace for one file.

Branches, in source order:
* percentage-gather mode (src lines 528-532): bump the denominator under
  `mutex_count` and return;
* count the discovered file under `mutex_count` (src lines 534-535);
* standalone mode (src lines 540-577): open a private db under `mutex_file`;
  on `OSError` log under `mutex_console` and abort this file;
* append mode (src lines 580-582): skip when the update filter reports the
  file already present — before any probe;
* probe (src lines 588-634) after reading the clock under `mutex_time`;
* on probe failure (src lines 635-676): `dict_files_failed.update(...)` —
  executed while holding no lock — then console output under `mutex_console`
  and a toast;
* on success (src lines 677-717): accumulate probe time under `mutex_time`,
  write the row under `mutex_file`, accumulate save time under `mutex_time`,
  bump the success counter under `mutex_count`, optionally log verbosely,
  close a standalone db under `mutex_file`;
* the trailing progress block (src lines 719-725). -/
def query_file (mode_open : String) (percentage_gather verbose : Bool) (job : FileJob)
    (s : RunState) : RunState × List WorkerEv :=
  if percentage_gather then
    ({ s with total_count_percentage := s.total_count_percentage + 1 },
      [.acquire .count, .incr_total_count_percentage, .release .count])
  else
    let s1 := { s with total_count_files := s.total_count_files + 1 }
    let ev1 : List WorkerEv := [.acquire .count, .incr_total_count_files, .release .count]
    if job.file_dimensions_given = false ∧ job.open_fails then
      (s1, ev1 ++ [.acquire .file, .open_db false,
        .acquire .console, .console_output, .release .console, .release .file])
    else
      let ev2 := ev1 ++
        (if job.file_dimensions_given then [] else [.acquire .file, .open_db true, .release .file])
      if mode_open = "a" ∧ job.already_in_db then (s1, ev2)
      else
        let ev3 := ev2 ++ [.acquire .time, .read_clock, .release .time,
          .invoke_probe job.path_file]
        match job.probe with
        | .err reason =>
          let s2 := { s1 with
            dict_files_failed := dict_update s1.dict_files_failed job.path_file reason }
          (s2, ev3 ++ [.update_dict_files_failed job.path_file,
            .acquire .console, .console_output, .release .console, .show_toast]
            ++ query_file_tail s2)
        | .ok _ _ =>
          let s2 := { s1 with
            total_time_queried := s1.total_time_queried + job.time_probe,
            rows_written := s1.rows_written ++ [job.path_file],
            total_time_db_save := s1.total_time_db_save + job.time_save,
            total_count_queried := s1.total_count_queried + 1 }
          (s2, ev3
            ++ [.acquire .time, .add_total_time_queried, .read_clock, .release .time,
              .acquire .file, .write_row job.path_file, .release .file,
              .acquire .time, .add_total_time_db_save, .release .time,
              .acquire .count, .incr_total_count_queried, .release .count]
            ++ (if verbose then [.acquire .console, .console_output, .release .console] else [])
            ++ (if job.file_dimensions_given then [] else [.acquire .file, .close_db, .release .file])
            ++ query_file_tail s2)

/-- A batch: the thread pool maps `query_file` over the job list (src lines
919-942); only the shared state threads through (completion order across
files is irrelevant to the counter claims proved below). -/
def run_batch (mode_open : String) (percentage_gather verbose : Bool) (jobs : List FileJob)
    (s : RunState) : RunState :=
  jobs.foldl (fun st job => (query_file mode_open percentage_gather verbose job st).1) s

/-! ## Lock discipline over a worker trace (for the failure-map claim) -/

/-- The multiset of locks held just before event `i` of a trace, obtained by
replaying acquisitions and releases. -/
def locks_held_before (trace : List WorkerEv) (i : ℕ) : List MuName :=
  (trace.take i).foldl
    (fun held e =>
      match e with
      | .acquire m => m :: held
      | .release m => held.erase m
      | _ => held)
    []

/-- Is the event a mutation of the shared failure map? -/
def is_failed_dict_update : WorkerEv → Bool
  | .update_dict_files_failed _ => true
  | _ => false

/-- Every mutation of the failure map in the trace happens while `m` is
held. -/
def failed_dict_updates_guarded_by (trace : List WorkerEv) (m : MuName) : Bool :=
  trace.enum.all fun p =>
    !(is_failed_dict_update p.2) || (locks_held_before trace p.1).contains m

/-- A concrete probe-failure job: directory mode, not previously recorded,
probe exits nonzero. -/
def job_probe_fail : FileJob :=
  { path_file := "/videos/Movie/f.mkv"
    file_dimensions_given := true
    open_fails := false
    already_in_db := false
    probe := .err "CalledProcessError"
    time_probe := 0
    time_save := 0 }

/-- The trace of a worker processing `job_probe_fail` in a write-mode batch. -/
def trace_probe_failure : List WorkerEv :=
  (query_file "w" false false job_probe_fail initial_run_state).2

/-! ## Merge (src lines 1344-1456) -/

/-- `db_name_generate` (src lines 508-514) as used by the merge path, where
an explicit volume label is always passed (src lines 1380, 1427, 1433):
`root + " - " + label_volume + os.extsep + "tsv"`. -/
def db_name_generate (root label_volume : String) : String :=
  root ++ " - " ++ label_volume ++ "." ++ "tsv"

/-- Embedding of `files_merge` (src lines 1345-1357).  Returns the uncaught
exception (if any) and the files it created.  `io.open(target, "w")` creates
(or truncates) `target`; the loop body then calls `shutil.copyfileobj` — but
`shutil` is never imported anywhere in the source, so the first iteration
raises `NameError: name 'shutil' is not defined`.  With an empty source list
the loop body never runs and the function succeeds (leaving `target` empty). -/
def files_merge (list_files : List String) (target : String) : Option String × List String :=
  match list_files with
  | [] => (none, [target])
  | _ :: _ => (some "NameError: name shutil is not defined", [target])

/-- The existence check at the head of `db_metadata_merge` (src lines
1366-1376): iterate over the inputs and bail out at the first one that does
not exist. -/
def merge_inputs_all_exist (fs_exists : String → Bool) : List String → Bool
  | [] => true
  | f :: rest => if fs_exists f then merge_inputs_all_exist fs_exists rest else false

/-- Result of a merge invocation: the uncaught exception if one escaped, the
returned exit code (meaningful only when no exception escaped), and every
file the invocation created, in creation order. -/
structure MergeResult where
  exc : Option String
  exit_code : ℕ
  created : List String
  deriving DecidableEq, Repr

/-- Embedding of `db_metadata_merge` (src lines 1361-1456).

`fs_exists` models `os.path.exists`; `sort_fails` models the outcome of the
external sort (`file_dimensions_sort`, src lines 767-833, which returns
`True` on error).  Control flow, in source order: if any input is missing,
return exit code 1 having created nothing (src lines 1366-1376); otherwise
write the header file (src lines 1380-1424), call
`files_merge(files_to_process, temp)` (src line 1429) — whose `NameError`
propagates uncaught — then sort the temporary file and, on sort success,
`files_merge((header, temp), merged)` (src lines 1435-1442), finally delete
the temporaries (deletions do not affect the `created` record). -/
def db_metadata_merge (fs_exists : String → Bool) (sort_fails : Bool) (root : String)
    (files_to_process : List String) : MergeResult :=
  if merge_inputs_all_exist fs_exists files_to_process then
    let db_name_header := db_name_generate root "Header"
    let db_name_merged_temp := db_name_generate root "Merged - Temp"
    let db_name_merged := db_name_generate root "Merged"
    match files_merge files_to_process db_name_merged_temp with
    | (some e, created₁) =>
      { exc := some e, exit_code := 0, created := db_name_header :: created₁ }
    | (none, created₁) =>
      if sort_fails then
        { exc := none, exit_code := 1, created := db_name_header :: created₁ }
      else
        match files_merge [db_name_header, db_name_merged_temp] db_name_merged with
        | (some e, created₂) =>
          { exc := some e, exit_code := 0, created := db_name_header :: created₁ ++ created₂ }
        | (none, created₂) =>
          { exc := none, exit_code := 0, created := db_name_header :: created₁ ++ created₂ }
  else { exc := none, exit_code := 1, created := [] }

/-! ## Supporting lemmas -/

/-- `dict.update` grows an association list by at most one entry. -/
theorem dict_update_length_le (d : List (String × String)) (k v : String) :
    (dict_update d k v).length ≤ d.length + 1 := by
  unfold dict_update
  split
  · simp
  · simp

/-- One worker step preserves `success + failures ≤ discovered`. -/
theorem query_file_counter_step (mode_open : String) (percentage_gather verbose : Bool)
    (job : FileJob) (s : RunState)
    (h : s.total_count_queried + s.dict_files_failed.length ≤ s.total_count_files) :
    (query_file mode_open percentage_gather verbose job s).1.total_count_queried
        + (query_file mode_open percentage_gather verbose job s).1.dict_files_failed.length
      ≤ (query_file mode_open percentage_gather verbose job s).1.total_count_files := by
  obtain ⟨path, fdg, opf, aid, probe, tp, ts⟩ := job
  cases percentage_gather with
  | true => simpa [query_file] using h
  | false =>
    by_cases hmo : mode_open = "a"
    all_goals cases fdg
    all_goals cases opf
    all_goals cases aid
    all_goals cases probe
    all_goals simp [query_file, hmo]
    all_goals try omega
    all_goals
      rename_i reason
      have := dict_update_length_le s.dict_files_failed path reason
      omega

/-- The batch fold preserves the counter invariant from any state. -/
theorem run_batch_counter_inv (mode_open : String) (percentage_gather verbose : Bool)
    (jobs : List FileJob) (s : RunState)
    (h : s.total_count_queried + s.dict_files_failed.length ≤ s.total_count_files) :
    (run_batch mode_open percentage_gather verbose jobs s).total_count_queried
        + (run_batch mode_open percentage_gather verbose jobs s).dict_files_failed.length
      ≤ (run_batch mode_open percentage_gather verbose jobs s).total_count_files := by
  induction jobs generalizing s with
  | nil => simpa [run_batch] using h
  | cons j rest ih =>
    simp only [run_batch, List.foldl_cons] at ih ⊢
    exact ih _ (query_file_counter_step mode_open percentage_gather verbose j s h)

/-- If some input is missing, the merge's existence scan reports failure. -/
theorem merge_inputs_all_exist_false (fs_exists : String → Bool) (files : List String)
    (f : String) (hmem : f ∈ files) (hne : fs_exists f = false) :
    merge_inputs_all_exist fs_exists files = false := by
  induction files with
  | nil => cases hmem
  | cons a rest ih =>
    unfold merge_inputs_all_exist
    rcases List.mem_cons.mp hmem with h | h
    · subst h
      simp [hne]
    · by_cases ha : fs_exists a = true
      · simp [ha, ih h]
      · simp [ha]

/-! ## Claim theorems -/

/-- Claim C1 (code bug): on a no-match scan the Update Filter does not
restore the stream's write offset.  `query_file_update_check` executes
`file_dimensions.seek(0, offset_db_original)` (src line 446), passing the
saved offset as the `whence` argument: with a saved offset of 5 the call
raises `ValueError` instead of returning "allow" with the offset restored;
with a saved offset of 1 it returns "allow" but leaves the stream at offset
0.  The skip direction behaves as claimed: a parent-directory-name match
returns `False` ("skip"). -/
theorem c1_update_filter_offset_not_restored :
    query_file_update_check "/videos/Movie/f.mkv" ⟨"abcde", 5⟩ =
        .error "ValueError: invalid whence"
      ∧ query_file_update_check "/videos/Movie/f.mkv" ⟨"ab", 1⟩ = .ok (true, ⟨"ab", 0⟩)
      ∧ query_file_update_check "/videos/Movie/f.mkv" ⟨"x\tMovie\t500", 11⟩ =
          .ok (false, ⟨"x\tMovie\t500", 0⟩) :=
  ⟨rfl, rfl, rfl⟩

/-- Claim C2 (confirmed): over any batch — any mix of successes, probe
failures, update-filter skips and standalone open failures — the success
counter plus the number of failure-map entries never exceeds the
discovered-files counter. -/
theorem c2_success_plus_failures_le_discovered (mode_open : String)
    (percentage_gather verbose : Bool) (jobs : List FileJob) :
    (run_batch mode_open percentage_gather verbose jobs initial_run_state).total_count_queried
        + (run_batch mode_open percentage_gather verbose jobs
            initial_run_state).dict_files_failed.length
      ≤ (run_batch mode_open percentage_gather verbose jobs initial_run_state).total_count_files :=
  run_batch_counter_inv mode_open percentage_gather verbose jobs initial_run_state
    (by simp [initial_run_state])

/-- Claim C3 (code bug): in the probe-failure path the worker mutates the
shared failure map (`dict_files_failed.update`, src lines 637 and 662) while
holding no lock at all; in particular the dedicated
`mutex_list_files_failed_probe` (src line 45) is never acquired anywhere in
the trace. -/
theorem c3_failure_map_update_unguarded :
    WorkerEv.update_dict_files_failed "/videos/Movie/f.mkv" ∈ trace_probe_failure
      ∧ failed_dict_updates_guarded_by trace_probe_failure MuName.failed_probe = false
      ∧ WorkerEv.acquire MuName.failed_probe ∉ trace_probe_failure := by
  decide

/-- Claim C4 (code bug): the concise duration formatter maps 0.5 to
`"0.5s"`, 3661 to `"1h:1m:1s"`, and the encoder relays `"N/A"` verbatim, as
claimed — but it maps 90 to `"2m:30s"`, not `"1m:30s"`: the minute count is
computed with Python `round(90 / 60) = round(1.5) = 2` (banker's rounding),
not integer division (src line 74). -/
theorem c4_duration_formatting_eval :
    total_time_in_hms_get_for_seconds (mkRat 1 2) true = "0.5s"
      ∧ total_time_in_hms_get_for_seconds 90 true = "2m:30s"
      ∧ total_time_in_hms_get_for_seconds 3661 true = "1h:1m:1s"
      ∧ duration_video_field "N/A" 0 = "N/A" := by
  decide

/-- Claim C5 counterexample: the codec long name
`"Alliance for Open Media AV1"` differs from the HEVC name, yet is marked
`"N"`, not `"Y"` — the allow-list (src line 297) has two entries. -/
theorem c5_av1_marked_n_counterexample :
    compression_candidate_field "Alliance for Open Media AV1" = "N"
      ∧ "Alliance for Open Media AV1" ≠ "H.265 / HEVC (High Efficiency Video Coding)" := by
  decide

/-- Claim C5 as amended: the compression-candidate field is a pure function
of the codec long name that marks exactly the two allow-list entries — the
HEVC name and `"Alliance for Open Media AV1"` — with `"N"` and every other
name with `"Y"`. -/
theorem c5_allowlist_classification (codec_video_name : String)
    (h : codec_video_name ∉ codec_video_compressed) :
    compression_candidate_field "H.265 / HEVC (High Efficiency Video Coding)" = "N"
      ∧ compression_candidate_field "Alliance for Open Media AV1" = "N"
      ∧ compression_candidate_field codec_video_name = "Y" :=
  ⟨by decide, by decide, by simp [compression_candidate_field, h]⟩

/-- Witness for `c5_allowlist_classification` at a concrete codec name. -/
theorem c5_allowlist_classification_witness :
    compression_candidate_field "MPEG-4 part 2" = "Y" :=
  (c5_allowlist_classification "MPEG-4 part 2" (by decide)).2.2

/-- Claim C6 counterexample: with a non-empty width `"1920"` and an empty
height, the encoder emits a single placeholder field — the row does not
contain both a width field and a height field, and the non-empty width value
is dropped. -/
theorem c6_dropped_width_counterexample :
    width_height_writes "1920" "" = ["0000\t"] := by decide

/-- Claim C6 as amended: both dimension fields are emitted exactly when the
width and height strings are both non-empty (numerically) or both empty (two
placeholders); when exactly one is empty, a single placeholder is emitted
for the empty one and the non-empty value is omitted from the row. -/
theorem c6_width_height_fields (w h : String) :
    ((width_height_writes w h).length = 2 ↔ (w.length = 0 ↔ h.length = 0))
      ∧ (w.length ≠ 0 → h.length ≠ 0 →
          width_height_writes w h = [formatRight ' ' 4 w ++ "\t", formatRight ' ' 4 h ++ "\t"])
      ∧ (w.length = 0 → h.length = 0 → width_height_writes w h = ["0000\t", "0000\t"])
      ∧ (w.length = 0 → h.length ≠ 0 → width_height_writes w h = ["0000\t"])
      ∧ (w.length ≠ 0 → h.length = 0 → width_height_writes w h = ["0000\t"]) := by
  by_cases hw : w.length = 0 <;> by_cases hh : h.length = 0 <;>
    simp [width_height_writes, hw, hh] <;> decide

/-- Witness for `c6_width_height_fields` at a concrete mixed input. -/
theorem c6_width_height_fields_witness :
    width_height_writes "" "1080" = ["0000\t"] :=
  (c6_width_height_fields "" "1080").2.2.2.1 (by decide) (by decide)

/-- Claim C7 counterexample: with target total 1 (which is at least 1) and
success count equal to the total, the final "all files queried" message is
not emitted — the success count (1) is a multiple of the checkpoint interval
(1), so the reporter takes the checkpoint branch, which never prints the
final message (src lines 468-504). -/
theorem c7_total_one_counterexample :
    final_message_emitted 1 1 = false := by decide

/-- Claim C7 as amended: for a target total of at least 1, the final message
is emitted iff the success count equals the target AND the target is not a
multiple of the checkpoint interval `max(1, round(total / 100))`; in
particular it is never emitted while the success count is below the
target. -/
theorem c7_final_message_iff (q t : ℕ) (ht : 1 ≤ t) :
    final_message_emitted q t = true ↔
      q = t ∧ ¬ checkpoint_files_queried t ∣ t := by
  unfold final_message_emitted percentage_completion_print
  by_cases hq : q % checkpoint_files_queried t = 0
  · rw [if_pos hq]
    simp only [Bool.false_eq_true, false_iff]
    rintro ⟨rfl, hnd⟩
    exact hnd (Nat.dvd_of_mod_eq_zero hq)
  · rw [if_neg hq]
    constructor
    · intro hqt
      have hqt' : q = t := by simpa using hqt
      subst hqt'
      exact ⟨rfl, fun hd => hq (Nat.mod_eq_zero_of_dvd hd)⟩
    · rintro ⟨rfl, -⟩
      simp

/-- Witness for `c7_final_message_iff`: with a target of 199 the checkpoint
is 2, which does not divide 199, so completion does emit the message. -/
theorem c7_final_message_iff_witness : final_message_emitted 199 199 = true :=
  (c7_final_message_iff 199 199 (by decide)).mpr ⟨rfl, by decide⟩

/-- Claim C8 (confirmed): a merge invocation whose input list contains a
nonexistent path aborts before any write — no header, temporary or merged
output file is created — and returns exit code 1. -/
theorem c8_merge_aborts_on_missing_input (fs_exists : String → Bool) (sort_fails : Bool)
    (root : String) (files : List String) (f : String) (hmem : f ∈ files)
    (hne : fs_exists f = false) :
    db_metadata_merge fs_exists sort_fails root files =
      { exc := none, exit_code := 1, created := [] } := by
  unfold db_metadata_merge
  rw [merge_inputs_all_exist_false fs_exists files f hmem hne]
  simp

/-- Witness for `c8_merge_aborts_on_missing_input`. -/
theorem c8_merge_aborts_on_missing_input_witness :
    db_metadata_merge (fun s => s == "a.tsv") false "video_metadata_db" ["a.tsv", "b.tsv"] =
      { exc := none, exit_code := 1, created := [] } :=
  c8_merge_aborts_on_missing_input (fun s => s == "a.tsv") false "video_metadata_db"
    ["a.tsv", "b.tsv"] "b.tsv" (by decide) (by decide)

/-- Claim C9 (code bug): a merge invocation in which all input files exist
does not concatenate, sort or produce the merged output file: the first
`shutil.copyfileobj` call raises `NameError` because `shutil` is never
imported (src line 1349), so only the header file and the (empty) temporary
file ever get created and the final merged file is never produced. -/
theorem c9_merge_raises_name_error :
    (db_metadata_merge (fun _ => true) false "video_metadata_db" ["a.tsv", "b.tsv"]).exc =
        some "NameError: name shutil is not defined"
      ∧ db_name_generate "video_metadata_db" "Merged" ∉
          (db_metadata_merge (fun _ => true) false "video_metadata_db"
            ["a.tsv", "b.tsv"]).created := by
  decide

/-- Claim C10 (confirmed): in percentage-gather mode the worker's only state
change is bumping the percentage denominator; the discovered, success and
timing counters, the failure map and the output rows are untouched, and the
trace contains no probe invocation and no row write. -/
theorem c10_percentage_gather_frame (mode_open : String) (verbose : Bool) (job : FileJob)
    (s : RunState) :
    (query_file mode_open true verbose job s).1.total_count_percentage
        = s.total_count_percentage + 1
      ∧ (query_file mode_open true verbose job s).1.total_count_files = s.total_count_files
      ∧ (query_file mode_open true verbose job s).1.total_count_queried = s.total_count_queried
      ∧ (query_file mode_open true verbose job s).1.total_time_queried = s.total_time_queried
      ∧ (query_file mode_open true verbose job s).1.total_time_db_save = s.total_time_db_save
      ∧ (query_file mode_open true verbose job s).1.dict_files_failed = s.dict_files_failed
      ∧ (query_file mode_open true verbose job s).1.rows_written = s.rows_written
      ∧ (∀ p, WorkerEv.invoke_probe p ∉ (query_file mode_open true verbose job s).2)
      ∧ (∀ p, WorkerEv.write_row p ∉ (query_file mode_open true verbose job s).2) := by
  refine ⟨rfl, rfl, rfl, rfl, rfl, rfl, rfl, ?_, ?_⟩ <;>
    · intro p
      simp [query_file]
